import Mathlib

/-!
# Verification of the multi-agent research provider

A shallow embedding of `research/providers/langchain_provider.py`.

Pure data flow is translated directly; the outcomes of the external calls
(the chat-completion client, the web-search client, the thread-pool batch
deadline) are parameters of the embedded functions, one parameter per call
site, so every control path of the Python code is a constructor case here.
Confidence scores are modelled as exact rationals (`ℚ`); the Python floats
`0.7`, `0.2`, `0.1` become `7/10`, `2/10`, `1/10`.  Python string slicing,
which is character-based, is modelled through `List Char`.
-/

/-! ## Python string primitives

Each helper mirrors one Python string operation, on characters (Python
strings index by code point, as `String.toList` does). -/

/-- Python `s[:n]`. -/
def pyTake (s : String) (n : Nat) : String := (s.toList.take n).asString

/-- Python `s[n:]`. -/
def pyDrop (s : String) (n : Nat) : String := (s.toList.drop n).asString

/-- Python `s[a:b]` for `0 ≤ a, b` (an empty string when `b ≤ a`). -/
def pySlice (s : String) (a b : Nat) : String :=
  ((s.toList.drop a).take (b - a)).asString

/-- Python `s[-n:]`: the last `min n (len s)` characters. -/
def pyLastN (s : String) (n : Nat) : String :=
  (s.toList.drop (s.toList.length - n)).asString

/-- Python `s.strip()` (the whitespace actually occurring in this code is
ASCII, where `Char.isWhitespace` agrees with Python). -/
def pyStrip (s : String) : String :=
  ((s.toList.dropWhile Char.isWhitespace).reverse.dropWhile
    Char.isWhitespace).reverse.asString

/-- Whether `pat` occurs as a contiguous run of `l`. -/
def listContainsSub : List Char → List Char → Bool
  | [], pat => pat.isEmpty
  | c :: rest, pat => pat.isPrefixOf (c :: rest) || listContainsSub rest pat

/-- Python `sub in s` for a non-empty `sub`. -/
def pyContains (s sub : String) : Bool := listContainsSub s.toList sub.toList

/-- Python `c in s` for a single character `c`. -/
def pyHasChar (s : String) (c : Char) : Bool := s.toList.any (· = c)

/-- Python `s.find(c)` for a character known to occur in `s` (every use in
the source is guarded by `c in s`). -/
def pyFind (s : String) (c : Char) : Nat := s.toList.findIdx (· = c)

/-- The characters of `l` before the first occurrence of the non-empty
`pat` — all of `l` when `pat` does not occur. -/
def takeUntilSub (pat : List Char) : List Char → List Char
  | [] => []
  | c :: rest => if pat.isPrefixOf (c :: rest) then [] else c :: takeUntilSub pat rest

/-- Python `s.split(sep)[0]` for a non-empty `sep`. -/
def pySplitHead (s sep : String) : String := (takeUntilSub sep.toList s.toList).asString

/-- Python `s.split(sep)` for a single-character separator: the runs between
occurrences, with empty runs kept. -/
def splitOnChar (sep : Char) : List Char → List (List Char)
  | [] => [[]]
  | c :: rest =>
    match splitOnChar sep rest with
    | [] => [[]]
    | acc :: accs => if c = sep then [] :: acc :: accs else (c :: acc) :: accs

/-- Python `s.lower()` (the only pattern looked up in lowered text is the
ASCII `"priority:"`). -/
def pyLower (s : String) : String := (s.toList.map Char.toLower).asString

/-! ## Data model (the Pydantic schemas of the source) -/

/-- `SubQuery`: one decomposed research question. -/
structure SubQuery where
  query : String
  priority : Int
  domain : String
  context : String := ""
deriving DecidableEq, Repr

/-- `QueryDecomposition`: the structured-output schema of the decomposition
call. -/
structure QueryDecomposition where
  sub_queries : List SubQuery
deriving DecidableEq, Repr

/-- `ResearchContent`: the four-section analysis produced by an agent. -/
structure ResearchContent where
  current_analysis : String
  key_findings : String
  implementation_insights : String
  future_prospects : String
deriving DecidableEq, Repr

/-- One entry of an `AgentResult`'s `sources` list: the dict
`{title, url, content}` built from a search hit. -/
structure Source where
  title : String
  url : String
  content : String
deriving DecidableEq, Repr

/-- `AgentResult`: the outcome of one specialised agent run. -/
structure AgentResult where
  agent_id : String
  query : String
  content : ResearchContent
  sources : List Source
  confidence_score : ℚ
  domain : String
deriving DecidableEq, Repr

/-- `FinalReport`: the structured-output schema of the synthesis call. -/
structure FinalReport where
  executive_summary : String
  main_findings : String
  cross_domain_insights : String
  actionable_recommendations : String
  future_research_topics : String
deriving DecidableEq, Repr

/-! ## Outcomes of the external calls -/

/-- Outcome of the structured decomposition call
(`client.beta.chat.completions.parse`): either the call raised, or it
returned a message with an optional parsed `QueryDecomposition` and an
optional raw text content (`message.content` may be `None`). -/
inductive DecomposeOutcome where
  | throw
  | ok (parsed : Option QueryDecomposition) (content : Option String)
deriving DecidableEq, Repr

/-! ## `ResearchSupervisor.decompose_query` -/

/-- The fixed fallback decomposition (source lines 150-154 and 161-165):
three sub-queries, each carrying the first 500 characters of the context. -/
def fallbackSubQueries (context : String) : List SubQuery :=
  [ { query := "技術動向と最新の進展", priority := 1, domain := "技術動向",
      context := pyTake context 500 },
    { query := "実用化・実装における課題と解決策", priority := 2, domain := "実装手法",
      context := pyTake context 500 },
    { query := "将来の展望と影響分析", priority := 2, domain := "将来展望",
      context := pyTake context 500 } ]

/-- One iteration of the free-text parsing loop of `decompose_query`
(source lines 122-146): accept a line that is non-blank, has a digit among
its first five characters and contains both `[` and `]`; read the domain
between the brackets, then the query text and the priority. -/
def parseDecompositionLine (context : String) (line : String) : Option SubQuery :=
  if pyStrip line ≠ "" ∧ (pyTake line 5).toList.any Char.isDigit then
    if pyHasChar line '[' ∧ pyHasChar line ']' then
      let domain_start := pyFind line '[' + 1
      let domain_end := pyFind line ']'
      let domain := pySlice line domain_start domain_end
      let query_part := pyStrip (pyDrop line (domain_end + 1))
      if pyContains query_part "優先度:" ∨ pyContains (pyLower query_part) "priority:" then
        let priority : Int :=
          if pyHasChar (pyLastN query_part 10) '1' then 1
          else if pyHasChar (pyLastN query_part 10) '3' then 3
          else 2
        let query_part := pyStrip (pySplitHead (pySplitHead query_part "(優先度") "(priority")
        some { query := query_part, priority := priority, domain := domain,
               context := pyTake context 500 }
      else
        some { query := query_part, priority := 2, domain := domain,
               context := pyTake context 500 }
    else none
  else none

/-- The whole free-text parsing loop: split the stripped content on newlines
and collect the parsed sub-queries in order. -/
def parseSubQueries (content context : String) : List SubQuery :=
  ((splitOnChar '\n' (pyStrip content).toList).map List.asString).filterMap
    (parseDecompositionLine context)

/-- `ResearchSupervisor.decompose_query` (source lines 82-165).

The structured result, when present and non-empty, is truncated to 3 and
returned.  Otherwise the source parses the free text into `sub_queries`
and then — unconditionally — logs a warning and returns the fixed fallback
(lines 149-154): the `return sub_queries[:3]` at line 156 sits after that
`return` and is unreachable.  A `None` message content makes
`content.strip()` raise, which the outer handler turns into the same
fallback, as does any other exception (`DecomposeOutcome.throw`). -/
def decompose_query (query context : String) (outcome : DecomposeOutcome) :
    List SubQuery :=
  match outcome with
  | .throw => fallbackSubQueries context
  | .ok parsed mcontent =>
    match parsed with
    | some d =>
      if ¬ d.sub_queries.isEmpty then
        d.sub_queries.take 3
      else
        match mcontent with
        | none => fallbackSubQueries context
        | some content =>
          let _dead := parseSubQueries content context
          fallbackSubQueries context
    | none =>
      match mcontent with
      | none => fallbackSubQueries context
      | some content =>
        let _dead := parseSubQueries content context
        fallbackSubQueries context

/-! ## `ContextCompressor.compress_context` -/

/-- Outcome of the compression chat call: the call raised, or it returned a
message whose `content` may be a string or `None`. -/
inductive CompressOutcome where
  | throw
  | ok (content : Option String)
deriving DecidableEq, Repr

/-- The marker the truncation fallback appends (source line 222). -/
def truncationMarker : String := "\n\n[...内容が切り詰められました...]"

/-- `ContextCompressor.compress_context` (source lines 191-222): the identity
below the threshold; otherwise the summarisation call's content when it
produced one.  When the call raises — or returns a `None` content, on which
the `len(compressed)` in the success log raises inside the same `try` — the
fallback is the first `threshold` characters plus `truncationMarker`. -/
def compress_context (context : String) (threshold : Nat)
    (outcome : CompressOutcome) : String :=
  if context.length ≤ threshold then context
  else
    match outcome with
    | .ok (some compressed) => compressed
    | .ok none => pyTake context threshold ++ truncationMarker
    | .throw => pyTake context threshold ++ truncationMarker

/-! ## `ResearchAgent.conduct_specialized_research` -/

/-- One raw hit returned by the search client (the fields the source reads
off each result dict, each defaulting to `""` under `.get`). -/
structure SearchResult where
  title : String
  url : String
  content : String
deriving DecidableEq, Repr

/-- Outcome of the `search_client.search` call (absent client behaves as
`ok []` with no call made). -/
inductive SearchOutcome where
  | throw
  | ok (results : List SearchResult)
deriving DecidableEq, Repr

/-- Outcome of the agent's structured chat call: raised with a message
(rendered by `str(e)` in the source), or returned an optional parsed
`ResearchContent`. -/
inductive AgentChatOutcome where
  | throw (msg : String)
  | ok (parsed : Option ResearchContent)
deriving DecidableEq, Repr

/-- The four-section rendering of a `ResearchContent` (the f-string at
source lines 315-326, repeated verbatim at 550-561 and 643-654). -/
def render_content (rc : ResearchContent) : String :=
  "## 現状分析\n" ++ rc.current_analysis ++
  "\n\n## 重要な発見・トレンド\n" ++ rc.key_findings ++
  "\n\n## 実用化への示唆\n" ++ rc.implementation_insights ++
  "\n\n## 今後の展望\n" ++ rc.future_prospects ++ "\n"

/-- The `current_analysis` of the synthetic failure result
(source line 357). -/
def errorAnalysis (msg : String) : String :=
  "研究中にエラーが発生しました: " ++ msg

/-- `ResearchAgent.conduct_specialized_research` (source lines 250-365).

A search failure is caught and leaves the result set empty; the research
prompt built from the sub-query and the search snippets only feeds the chat
call, whose outcome is the `chat` parameter.  On a successful chat call the
confidence starts at 0.7, gains 0.2 for a non-empty search-result set and
0.1 for rendered content longer than 1000 characters, clamped at 1.  On a
raised chat call the synthetic failure result carries the error text,
empty remaining sections, no sources and confidence 0.1. -/
def conduct_specialized_research (agent_id : String) (sq : SubQuery)
    (search : SearchOutcome) (chat : AgentChatOutcome) : AgentResult :=
  let search_results : List SearchResult :=
    match search with
    | .throw => []
    | .ok rs => rs
  let sources : List Source :=
    match search with
    | .throw => []
    | .ok rs => rs.map (fun r => { title := r.title, url := r.url,
                                   content := pyTake r.content 500 })
  match chat with
  | .ok parsed =>
    let content : String :=
      match parsed with
      | some rc => render_content rc
      | none => "構造化出力の解析に失敗しました"
    let confidence_score : ℚ :=
      7/10 + (if search_results.isEmpty then 0 else 2/10)
           + (if content.length > 1000 then 1/10 else 0)
    { agent_id := agent_id
      query := sq.query
      content :=
        match parsed with
        | some rc => rc
        | none => { current_analysis := content, key_findings := "",
                    implementation_insights := "", future_prospects := "" }
      sources := sources
      confidence_score := min confidence_score 1
      domain := sq.domain }
  | .throw msg =>
    { agent_id := agent_id
      query := sq.query
      content := { current_analysis := errorAnalysis msg, key_findings := "",
                   implementation_insights := "", future_prospects := "" }
      sources := []
      confidence_score := 1/10
      domain := sq.domain }

/-! ## `LangChainProvider._synthesize_agent_results` -/

/-- Outcome of the synthesis chat call. -/
inductive SynthesisOutcome where
  | throw
  | ok (parsed : Option FinalReport)
deriving DecidableEq, Repr

/-- What `_synthesize_agent_results` hands back.  The function is annotated
`-> str` and every path but one returns a string; the single-result path
returns the `ResearchContent` object itself, so the embedded return type is
the sum of the two. -/
inductive SynthOutput where
  | contentObj (c : ResearchContent)
  | text (s : String)
deriving DecidableEq, Repr

/-- Python's `{x:.2f}` on the exact rationals arising here: two decimal
places, ties rounding as `round` does (no claim inspects the digits). -/
def format2f (q : ℚ) : String :=
  let n : Int := round (q * 100)
  let m := n.natAbs
  (if n < 0 then "-" else "") ++ toString (m / 100) ++ "." ++
    (if m % 100 < 10 then "0" else "") ++ toString (m % 100)

/-- The rendering of a parsed `FinalReport` (source lines 609-625). -/
def render_final_report (fr : FinalReport) : String :=
  "# 統合研究レポート\n\n## エグゼクティブサマリー\n" ++ fr.executive_summary ++
  "\n\n## 主要な発見事項\n" ++ fr.main_findings ++
  "\n\n## 分野横断的な洞察\n" ++ fr.cross_domain_insights ++
  "\n\n## 実装・実践への提言\n" ++ fr.actionable_recommendations ++
  "\n\n## 今後の研究課題\n" ++ fr.future_research_topics ++ "\n"

/-- The execution-summary footer (source lines 630-633): agent count, mean
confidence, comma-joined domain list. -/
def agent_summary (agent_results : List AgentResult) : String :=
  "\n\n## 研究実行詳細\n\n" ++
  "- 実行エージェント数: " ++ toString agent_results.length ++ "\n" ++
  "- 平均信頼度スコア: " ++
    format2f ((agent_results.map (·.confidence_score)).sum / agent_results.length) ++ "\n" ++
  "- 専門分野: " ++ String.intercalate ", " (agent_results.map (·.domain)) ++ "\n"

/-- The concatenation fallback used when the synthesis call raises (source
lines 640-658): a report header, then each agent's domain heading and full
rendered content. -/
def synthesis_fallback (agent_results : List AgentResult) : String :=
  "# 統合研究レポート\n\n" ++
  String.join (agent_results.map (fun r =>
    "## " ++ r.domain ++ "分野の分析\n\n" ++ render_content r.content ++ "\n\n"))

/-- `LangChainProvider._synthesize_agent_results` (source lines 536-658).

Empty input yields a fixed failure string; a single result is returned as
its `content` object itself (line 542 — the unrendered `ResearchContent`,
despite the `-> str` annotation).  With two or more results the synthesis
prompt (built from the rendered agents, feeding only the chat call) is sent:
a parsed `FinalReport` is rendered, a missing parse becomes the fixed string
`統合レポートの生成に失敗しました`, both followed by the execution-summary
footer; a raised call falls back to plain concatenation. -/
def synthesize_agent_results (agent_results : List AgentResult)
    (outcome : SynthesisOutcome) : SynthOutput :=
  match agent_results with
  | [] => .text "研究結果の統合に失敗しました。"
  | [r] => .contentObj r.content
  | _ =>
    match outcome with
    | .throw => .text (synthesis_fallback agent_results)
    | .ok parsed =>
      let synthesized_content :=
        match parsed with
        | some fr => render_final_report fr
        | none => "統合レポートの生成に失敗しました"
      .text (synthesized_content ++ agent_summary agent_results)

/-! ## `LangChainProvider.conduct_research` -/

/-- The provider state that `conduct_research` consults: whether the two
required Azure settings are present, whether the OpenAI library imported,
whether the client was constructed (the supervisor and compressor exist
exactly when it was), and the numeric settings. -/
structure ProviderConfig where
  azure_api_key : Bool
  azure_base_url : Bool
  openai_available : Bool
  openai_client : Bool
  max_sub_agents : Nat
  context_compression_threshold : Nat
deriving DecidableEq, Repr

/-- `LangChainProvider.validate_config` (source lines 447-460). -/
def validate_config (cfg : ProviderConfig) : Bool :=
  cfg.azure_api_key && cfg.azure_base_url && cfg.openai_available

/-- The outcomes of every external interaction of one `conduct_research`
run: the compression call, the decomposition call, each agent's search and
chat calls (indexed by dispatch position), whether the parallel batch hit
its wall-clock deadline, and the synthesis call. -/
structure RunOutcomes where
  compress : CompressOutcome
  decompose : DecomposeOutcome
  agents : Nat → SearchOutcome × AgentChatOutcome
  batchTimeout : Bool
  synthesis : SynthesisOutcome

/-- The prompt after the optional compression step (source lines 479-480). -/
def effective_prompt (cfg : ProviderConfig) (o : RunOutcomes) (prompt : String) :
    String :=
  if prompt.length > cfg.context_compression_threshold then
    compress_context prompt cfg.context_compression_threshold o.compress
  else prompt

/-- The sub-queries of the run (source line 484): decomposition of the
effective prompt against its own first 1000 characters. -/
def pipeline_sub_queries (cfg : ProviderConfig) (o : RunOutcomes) (prompt : String) :
    List SubQuery :=
  decompose_query (effective_prompt cfg o prompt)
    (pyTake (effective_prompt cfg o prompt) 1000) o.decompose

/-- The agent results of the run (source lines 489-512): with more than one
sub-query, the first `max_sub_agents` of them are dispatched, agent `i+1`
running the `i`-th (the `as_completed` loop yields them in an unspecified
order; every property stated below is order-insensitive, so dispatch order
stands in for it); with one sub-query a single agent runs synchronously. -/
def pipeline_agent_results (cfg : ProviderConfig) (o : RunOutcomes) (prompt : String) :
    List AgentResult :=
  let sub_queries := pipeline_sub_queries cfg o prompt
  if sub_queries.length > 1 then
    (sub_queries.take cfg.max_sub_agents).enum.map (fun p =>
      conduct_specialized_research ("agent_" ++ toString (p.1 + 1)) p.2
        (o.agents p.1).1 (o.agents p.1).2)
  else
    match sub_queries with
    | [] => []
    | sq :: _ =>
      [conduct_specialized_research "agent_1" sq (o.agents 0).1 (o.agents 0).2]

/-- The final dictionary (source lines 522-527): synthesised content, the
concatenation of all sources, the result count, the mean confidence. -/
structure ResearchResult where
  content : SynthOutput
  search_results : List Source
  agent_results : Nat
  confidence_score : ℚ
deriving DecidableEq, Repr

/-- `LangChainProvider.conduct_research` (source lines 462-534).

`None` when validation fails or the client is absent; `None` when the
parallel batch times out (`as_completed` raises `TimeoutError`, caught at
line 529) and when the thread pool cannot be built (`max_workers = 0` makes
`ThreadPoolExecutor` raise, landing in the catch-all at line 532); `None`
likewise on the unreachable empty decomposition (`sub_queries[0]` would
raise).  Otherwise the packaged result. -/
def conduct_research (cfg : ProviderConfig) (o : RunOutcomes) (prompt : String) :
    Option ResearchResult :=
  if validate_config cfg && cfg.openai_client then
    let sub_queries := pipeline_sub_queries cfg o prompt
    if sub_queries.length > 1 then
      if cfg.max_sub_agents = 0 then none
      else if o.batchTimeout then none
      else
        let agent_results := pipeline_agent_results cfg o prompt
        some { content := synthesize_agent_results agent_results o.synthesis
               search_results := agent_results.flatMap (·.sources)
               agent_results := agent_results.length
               confidence_score :=
                 if agent_results.isEmpty then 0
                 else (agent_results.map (·.confidence_score)).sum / agent_results.length }
    else
      match sub_queries with
      | [] => none
      | _ =>
        let agent_results := pipeline_agent_results cfg o prompt
        some { content := synthesize_agent_results agent_results o.synthesis
               search_results := agent_results.flatMap (·.sources)
               agent_results := agent_results.length
               confidence_score :=
                 if agent_results.isEmpty then 0
                 else (agent_results.map (·.confidence_score)).sum / agent_results.length }
  else none

/-! ## Helper lemmas -/

/-- `decompose_query` never returns an empty list: the non-empty structured
result survives truncation, and every other path is the 3-element fallback. -/
theorem decompose_query_ne_nil (q c : String) (o : DecomposeOutcome) :
    decompose_query q c o ≠ [] := by
  cases o with
  | throw => simp [decompose_query, fallbackSubQueries]
  | ok parsed mcontent =>
    cases parsed with
    | none => cases mcontent <;> simp [decompose_query, fallbackSubQueries]
    | some d =>
      by_cases hd : d.sub_queries.isEmpty
      · cases mcontent <;> simp [decompose_query, hd, fallbackSubQueries]
      · rcases hl : d.sub_queries with _ | ⟨a, l⟩
        · simp [hl] at hd
        · simp [decompose_query, hd, hl]

/-! ## Claims -/

/-- C3: `decompose_query` resolves every failure of the structured call to
the fixed fallback: a raised call, a missing parse, an empty parsed
sub-query list and a missing text content all yield exactly three
sub-queries, with domains 技術動向 / 実装手法 / 将来展望, priorities
1 / 2 / 2, each carrying the first 500 characters of the context; no
outcome escapes these total equations. -/
theorem decompose_query_failure_yields_fixed_fallback :
    ∀ (query context : String) (mcontent : Option String),
      decompose_query query context .throw = fallbackSubQueries context
      ∧ decompose_query query context (.ok none mcontent) = fallbackSubQueries context
      ∧ decompose_query query context (.ok (some ⟨[]⟩) mcontent) = fallbackSubQueries context
      ∧ fallbackSubQueries context =
          [ { query := "技術動向と最新の進展", priority := 1, domain := "技術動向",
              context := pyTake context 500 },
            { query := "実用化・実装における課題と解決策", priority := 2,
              domain := "実装手法", context := pyTake context 500 },
            { query := "将来の展望と影響分析", priority := 2, domain := "将来展望",
              context := pyTake context 500 } ] := by
  intro query context mcontent
  refine ⟨rfl, ?_, ?_, rfl⟩ <;> cases mcontent <;> rfl

/-- A chat response whose free text carries three well-formed numbered
decomposition lines. -/
def c2_content : String :=
  "1. [技術動向] AIの最新動向 (優先度: 1)\n2. [実装手法] 導入の課題 (優先度: 2)\n3. [将来展望] 今後の展開 (優先度: 3)"

/-- C2 (the code diverges from the claim): with an empty structured result
and a free text containing three parseable numbered lines, the parsing loop
recovers all three sub-queries, yet `decompose_query` returns the fixed
fallback — the `return sub_queries[:3]` of the source is unreachable, so
the parsed sub-queries are discarded. -/
theorem decompose_query_discards_parsed_sub_queries :
    decompose_query "AIの研究" "ctx" (.ok (some ⟨[]⟩) (some c2_content))
      = fallbackSubQueries "ctx"
    ∧ (parseSubQueries c2_content "ctx").length = 3
    ∧ (parseSubQueries c2_content "ctx").take 3 ≠ fallbackSubQueries "ctx" := by
  refine ⟨rfl, rfl, by decide⟩

/-- C9: `compress_context` is the identity whenever the context does not
exceed the threshold (for every call outcome — no call is made), and on a
raised summarisation call over the threshold it returns the first
`threshold` characters with the fixed truncation marker appended, of total
length `threshold + truncationMarker.length`; every path returns a value. -/
theorem compress_context_identity_and_truncation :
    ∀ (context : String) (threshold : Nat) (o : CompressOutcome),
      (context.length ≤ threshold → compress_context context threshold o = context)
      ∧ (threshold < context.length →
          compress_context context threshold .throw
            = pyTake context threshold ++ truncationMarker
          ∧ (compress_context context threshold .throw).length
            = threshold + truncationMarker.length) := by
  intro context threshold o
  constructor
  · intro h
    simp [compress_context, h]
  · intro h
    have hne : ¬ context.length ≤ threshold := by omega
    constructor
    · simp [compress_context, hne]
    · simp only [compress_context, hne, if_false]
      rw [String.length_append]
      congr 1
      show ((context.toList.take threshold).asString).length = threshold
      have : ((context.toList.take threshold).asString).length
          = (context.toList.take threshold).length := rfl
      rw [this, List.length_take]
      have hlen : context.toList.length = context.length := rfl
      omega

/-- A concrete successful single-agent result. -/
def c1_result : AgentResult :=
  { agent_id := "agent_1", query := "AIの動向",
    content := { current_analysis := "分析", key_findings := "発見",
                 implementation_insights := "示唆", future_prospects := "展望" },
    sources := [], confidence_score := 9/10, domain := "技術動向" }

/-- C1 (the code diverges from the claim): on a single-element list,
`_synthesize_agent_results` returns the `ResearchContent` object itself —
for every synthesis-call outcome, so no chat call influences it — and that
object is not the rendered four-section string the claim (and the
function's own `-> str` annotation) promises. -/
theorem synthesize_single_returns_content_object :
    (∀ o : SynthesisOutcome,
      synthesize_agent_results [c1_result] o = .contentObj c1_result.content)
    ∧ SynthOutput.contentObj c1_result.content
        ≠ SynthOutput.text (render_content c1_result.content) := by
  refine ⟨fun o => rfl, by simp⟩

/-- C5: `conduct_specialized_research` is total with a confidence score in
`[0, 1]` for every combination of search and chat outcomes — both clients
raising included — and a raised chat call yields exactly the synthetic
failure result: the error text in `current_analysis`, the other three
sections empty, no sources, confidence exactly 1/10. -/
theorem agent_research_total_and_failure_shape :
    ∀ (agent_id : String) (sq : SubQuery) (search : SearchOutcome)
      (chat : AgentChatOutcome) (msg : String),
      (0 ≤ (conduct_specialized_research agent_id sq search chat).confidence_score
       ∧ (conduct_specialized_research agent_id sq search chat).confidence_score ≤ 1)
      ∧ conduct_specialized_research agent_id sq search (.throw msg) =
          { agent_id := agent_id, query := sq.query,
            content := { current_analysis := errorAnalysis msg, key_findings := "",
                         implementation_insights := "", future_prospects := "" },
            sources := [], confidence_score := 1/10, domain := sq.domain } := by
  intro agent_id sq search chat msg
  refine ⟨?_, rfl⟩
  cases chat with
  | throw m =>
    constructor <;> norm_num [conduct_specialized_research]
  | ok parsed =>
    simp only [conduct_specialized_research]
    constructor
    · refine le_min ?_ (by norm_num)
      split_ifs <;> norm_num
    · exact min_le_right _ _

/-- The agent's collected search results (the value bound at source lines
255-269: empty when the search client raised). -/
def search_results_of : SearchOutcome → List SearchResult
  | .throw => []
  | .ok rs => rs

/-- The combined content measured for the confidence bonus (source lines
313-328): the rendered sections of a parsed result, a fixed failure string
otherwise. -/
def success_content : Option ResearchContent → String
  | some rc => render_content rc
  | none => "構造化出力の解析に失敗しました"

/-- C8: on a successful chat call the confidence score is exactly
`min (0.7 + [0.2 if search hits] + [0.1 if content > 1000 chars]) 1`, and
it is monotone as the claim states: search hits never lower it, and content
beyond 1000 characters never scores below shorter content, all else
equal. -/
theorem confidence_score_formula_and_monotone :
    ∀ (agent_id : String) (sq : SubQuery) (search : SearchOutcome)
      (parsed : Option ResearchContent),
      ((conduct_specialized_research agent_id sq search (.ok parsed)).confidence_score
        = min ((7 : ℚ)/10 + (if (search_results_of search).isEmpty then 0 else 2/10)
             + (if (success_content parsed).length > 1000 then 1/10 else 0)) 1)
      ∧ (∀ rs : List SearchResult,
          (conduct_specialized_research agent_id sq (.ok rs) (.ok parsed)).confidence_score
            ≥ (conduct_specialized_research agent_id sq (.ok []) (.ok parsed)).confidence_score)
      ∧ (∀ rc rc' : ResearchContent,
          (render_content rc).length > 1000 → (render_content rc').length ≤ 1000 →
          (conduct_specialized_research agent_id sq search (.ok (some rc))).confidence_score
            ≥ (conduct_specialized_research agent_id sq search (.ok (some rc'))).confidence_score) := by
  intro agent_id sq search parsed
  have formula : ∀ (search : SearchOutcome) (parsed : Option ResearchContent),
      (conduct_specialized_research agent_id sq search (.ok parsed)).confidence_score
        = min ((7 : ℚ)/10 + (if (search_results_of search).isEmpty then 0 else 2/10)
             + (if (success_content parsed).length > 1000 then 1/10 else 0)) 1 := by
    intro search parsed
    cases search <;> rfl
  refine ⟨formula search parsed, ?_, ?_⟩
  · intro rs
    rw [ge_iff_le, formula, formula]
    refine min_le_min ?_ le_rfl
    simp only [search_results_of, List.isEmpty_nil, if_true]
    split_ifs <;> norm_num
  · intro rc rc' h h'
    rw [ge_iff_le, formula, formula]
    refine min_le_min ?_ le_rfl
    simp only [success_content]
    rw [if_pos h, if_neg (by omega : ¬ (render_content rc').length > 1000)]
    split_ifs <;> norm_num

/-- C10: with two or more results, the plain-concatenation fallback is the
raised-call path, while a successful synthesis call without a parsed
`FinalReport` yields the fixed failure string followed by the
execution-summary footer — an output determined by the agents' domains and
confidence scores alone, so no agent's content reaches it. -/
theorem synthesize_parse_failure_drops_agent_content :
    ∀ (r1 r2 : AgentResult) (rs : List AgentResult),
      (synthesize_agent_results (r1 :: r2 :: rs) (.ok none)
        = .text ("統合レポートの生成に失敗しました" ++ agent_summary (r1 :: r2 :: rs)))
      ∧ (synthesize_agent_results (r1 :: r2 :: rs) .throw
        = .text (synthesis_fallback (r1 :: r2 :: rs)))
      ∧ (∀ (s1 s2 : AgentResult) (ss : List AgentResult),
          (r1 :: r2 :: rs).map (fun r => (r.domain, r.confidence_score))
            = (s1 :: s2 :: ss).map (fun r => (r.domain, r.confidence_score)) →
          synthesize_agent_results (r1 :: r2 :: rs) (.ok none)
            = synthesize_agent_results (s1 :: s2 :: ss) (.ok none)) := by
  intro r1 r2 rs
  refine ⟨rfl, rfl, ?_⟩
  intro s1 s2 ss h
  have hdom : (r1 :: r2 :: rs).map (·.domain) = (s1 :: s2 :: ss).map (·.domain) := by
    have := congrArg (List.map Prod.fst) h
    simpa [List.map_map, Function.comp] using this
  have hconf : (r1 :: r2 :: rs).map (·.confidence_score)
      = (s1 :: s2 :: ss).map (·.confidence_score) := by
    have := congrArg (List.map Prod.snd) h
    simpa [List.map_map, Function.comp] using this
  have hlen : (r1 :: r2 :: rs).length = (s1 :: s2 :: ss).length := by
    have := congrArg List.length h
    simpa using this
  simp only [synthesize_agent_results, agent_summary]
  rw [hdom, hconf, hlen]

/-- C4: with valid configuration, a constructed client, a non-zero worker
pool and no batch timeout, `conduct_research` returns a result whose agent
count is exactly the length of the dispatched sub-query list — one
`AgentResult` per dispatched sub-query, whatever every agent's own search
and chat outcomes were. -/
theorem conduct_research_one_result_per_dispatched_sub_query :
    ∀ (cfg : ProviderConfig) (o : RunOutcomes) (prompt : String),
      validate_config cfg = true → cfg.openai_client = true →
      o.batchTimeout = false → 1 ≤ cfg.max_sub_agents →
      ∃ res, conduct_research cfg o prompt = some res
        ∧ res.agent_results
            = ((pipeline_sub_queries cfg o prompt).take cfg.max_sub_agents).length := by
  intro cfg o prompt hv hc ht hm
  have hmax : ¬ cfg.max_sub_agents = 0 := by omega
  have hnn : pipeline_sub_queries cfg o prompt ≠ [] :=
    decompose_query_ne_nil (effective_prompt cfg o prompt)
      (pyTake (effective_prompt cfg o prompt) 1000) o.decompose
  have hcount : (pipeline_agent_results cfg o prompt).length
      = ((pipeline_sub_queries cfg o prompt).take cfg.max_sub_agents).length := by
    by_cases hlen : 1 < (pipeline_sub_queries cfg o prompt).length
    · simp only [pipeline_agent_results, if_pos hlen, List.length_map,
        List.enum_length]
    · rcases hsq : pipeline_sub_queries cfg o prompt with _ | ⟨sq, rest⟩
      · exact absurd hsq hnn
      · have hrest : rest = [] := by
          rw [hsq] at hlen
          simp only [List.length_cons] at hlen
          cases rest with
          | nil => rfl
          | cons a l => simp at hlen
        subst hrest
        simp only [pipeline_agent_results]
        rw [hsq]
        simp [List.length_take]
        omega
  have hcr : conduct_research cfg o prompt = some
      { content := synthesize_agent_results (pipeline_agent_results cfg o prompt)
          o.synthesis,
        search_results := (pipeline_agent_results cfg o prompt).flatMap (·.sources),
        agent_results := (pipeline_agent_results cfg o prompt).length,
        confidence_score :=
          if (pipeline_agent_results cfg o prompt).isEmpty then 0
          else ((pipeline_agent_results cfg o prompt).map (·.confidence_score)).sum
            / (pipeline_agent_results cfg o prompt).length } := by
    by_cases hlen : 1 < (pipeline_sub_queries cfg o prompt).length
    · simp [conduct_research, hv, hc, hlen, hmax, ht]
    · rcases hsq : pipeline_sub_queries cfg o prompt with _ | ⟨sq, rest⟩
      · exact absurd hsq hnn
      · rw [hsq] at hlen
        have hrest : rest = [] := by
          cases rest with
          | nil => rfl
          | cons a l => simp at hlen
        subst hrest
        simp only [conduct_research, hv, hc, Bool.and_self, if_true]
        rw [hsq]
        simp
  exact ⟨_, hcr, hcount⟩

/-- C6: once more than one sub-query is dispatched, a batch that hits the
wall-clock deadline makes `conduct_research` return `None` — the run is
aborted whole, no partial result set escapes. -/
theorem conduct_research_batch_timeout_returns_none :
    ∀ (cfg : ProviderConfig) (o : RunOutcomes) (prompt : String),
      1 < (pipeline_sub_queries cfg o prompt).length →
      o.batchTimeout = true →
      conduct_research cfg o prompt = none := by
  intro cfg o prompt hlen ht
  unfold conduct_research
  by_cases hvc : (validate_config cfg && cfg.openai_client) = true
  · rw [if_pos hvc, if_pos hlen]
    by_cases hmax : cfg.max_sub_agents = 0
    · rw [if_pos hmax]
    · rw [if_neg hmax, if_pos ht]
  · rw [if_neg hvc]

/-- The synthetic failure result of a raised agent chat call, as one
equation (source lines 351-365). -/
theorem conduct_specialized_research_throw (aid : String) (sq : SubQuery)
    (search : SearchOutcome) (msg : String) :
    conduct_specialized_research aid sq search (.throw msg) =
      { agent_id := aid, query := sq.query,
        content := { current_analysis := errorAnalysis msg, key_findings := "",
                     implementation_insights := "", future_prospects := "" },
        sources := [], confidence_score := 1/10, domain := sq.domain } := rfl

/-- The mean the facade computes over results that all score 1/10 is 1/10. -/
theorem mean_confidence_const (l : List AgentResult) (hne : l ≠ [])
    (h : ∀ r ∈ l, r.confidence_score = 1/10) :
    (if l.isEmpty then (0 : ℚ)
     else (l.map (·.confidence_score)).sum / l.length) = 1/10 := by
  rw [if_neg (by simpa using hne)]
  have hmap : l.map (·.confidence_score) = List.replicate l.length (1/10 : ℚ) := by
    refine List.eq_replicate_iff.mpr ⟨by simp, ?_⟩
    intro x hx
    simp only [List.mem_map] at hx
    obtain ⟨r, hr, rfl⟩ := hx
    exact h r hr
  have hl : (l.length : ℚ) ≠ 0 := by
    have : l.length ≠ 0 := by simpa using hne
    exact_mod_cast this
  rw [hmap, List.sum_replicate, nsmul_eq_mul]
  field_simp
  ring

/-- C7: with valid configuration, a constructed client and the default
three-agent pool, a chat client that raises on every call — compression,
decomposition, every agent, synthesis alike — still yields a non-null
result with exactly 3 agent results and mean confidence exactly 1/10, every
agent result carrying an error message in `current_analysis`, the other
sections empty, and confidence 1/10. -/
theorem conduct_research_survives_all_chat_failures :
    ∀ (cfg : ProviderConfig) (prompt : String) (m : Nat → String)
      (s : Nat → SearchOutcome),
      validate_config cfg = true → cfg.openai_client = true →
      cfg.max_sub_agents = 3 →
      ∃ res,
        conduct_research cfg
          { compress := .throw, decompose := .throw,
            agents := fun i => (s i, .throw (m i)),
            batchTimeout := false, synthesis := .throw } prompt = some res
        ∧ res.agent_results = 3
        ∧ res.confidence_score = 1/10
        ∧ ∀ r ∈ pipeline_agent_results cfg
              { compress := .throw, decompose := .throw,
                agents := fun i => (s i, .throw (m i)),
                batchTimeout := false, synthesis := .throw } prompt,
            (∃ e, r.content.current_analysis = errorAnalysis e)
            ∧ r.content.key_findings = ""
            ∧ r.content.implementation_insights = ""
            ∧ r.content.future_prospects = ""
            ∧ r.confidence_score = 1/10 := by
  intro cfg prompt m s hv hc hm3
  set o : RunOutcomes :=
    { compress := .throw, decompose := .throw,
      agents := fun i => (s i, .throw (m i)),
      batchTimeout := false, synthesis := .throw } with ho
  have hsq : pipeline_sub_queries cfg o prompt
      = fallbackSubQueries (pyTake (effective_prompt cfg o prompt) 1000) := rfl
  have hlen : 1 < (pipeline_sub_queries cfg o prompt).length := by
    rw [hsq]; simp [fallbackSubQueries]
  have hmax : ¬ cfg.max_sub_agents = 0 := by omega
  have hall : ∀ r ∈ pipeline_agent_results cfg o prompt,
      (∃ e, r.content.current_analysis = errorAnalysis e)
      ∧ r.content.key_findings = ""
      ∧ r.content.implementation_insights = ""
      ∧ r.content.future_prospects = ""
      ∧ r.confidence_score = 1/10 := by
    intro r hr
    simp only [pipeline_agent_results, if_pos hlen, List.mem_map] at hr
    obtain ⟨⟨i, sq⟩, _, hre⟩ := hr
    subst hre
    exact ⟨⟨m (i, sq).1, rfl⟩, rfl, rfl, rfl, rfl⟩
  have hcount : (pipeline_agent_results cfg o prompt).length = 3 := by
    simp only [pipeline_agent_results, if_pos hlen]
    rw [hsq, hm3]
    rfl
  have hne : pipeline_agent_results cfg o prompt ≠ [] := by
    intro h
    rw [h] at hcount
    simp at hcount
  have hcr : conduct_research cfg o prompt = some
      { content := synthesize_agent_results (pipeline_agent_results cfg o prompt)
          o.synthesis,
        search_results := (pipeline_agent_results cfg o prompt).flatMap (·.sources),
        agent_results := (pipeline_agent_results cfg o prompt).length,
        confidence_score :=
          if (pipeline_agent_results cfg o prompt).isEmpty then 0
          else ((pipeline_agent_results cfg o prompt).map (·.confidence_score)).sum
            / (pipeline_agent_results cfg o prompt).length } := by
    simp [conduct_research, hv, hc, hlen, hmax, ho]
  refine ⟨_, hcr, hcount, ?_, hall⟩
  exact mean_confidence_const _ hne (fun r hr => (hall r hr).2.2.2.2)

/-! ## Concrete fixtures for the witnesses -/

/-- A fully configured provider with the default numeric settings. -/
def cfg0 : ProviderConfig :=
  { azure_api_key := true, azure_base_url := true, openai_available := true,
    openai_client := true, max_sub_agents := 3,
    context_compression_threshold := 4000 }

/-- A run whose every external call raises, without a batch timeout. -/
def runChatThrow : RunOutcomes :=
  { compress := .throw, decompose := .throw,
    agents := fun _ => (.ok [], .throw "boom"),
    batchTimeout := false, synthesis := .throw }

/-- The same run with the batch deadline expiring. -/
def runTimeout : RunOutcomes :=
  { compress := .throw, decompose := .throw,
    agents := fun _ => (.ok [], .throw "boom"),
    batchTimeout := true, synthesis := .throw }

/-- A research content whose rendering exceeds 1000 characters. -/
def bigRC : ResearchContent :=
  { current_analysis := (List.replicate 1001 'x').asString, key_findings := "",
    implementation_insights := "", future_prospects := "" }

/-- A research content whose rendering stays at or below 1000 characters. -/
def smallRC : ResearchContent :=
  { current_analysis := "短い分析", key_findings := "",
    implementation_insights := "", future_prospects := "" }

/-- A concrete sub-query. -/
def sq0 : SubQuery :=
  { query := "AIの動向", priority := 1, domain := "技術動向", context := "" }

/-- Two agent results for the synthesis witnesses. -/
def r10a : AgentResult :=
  { agent_id := "agent_1", query := "q1",
    content := { current_analysis := "AAA", key_findings := "",
                 implementation_insights := "", future_prospects := "" },
    sources := [], confidence_score := 1/10, domain := "技術動向" }

/-- Second agent result. -/
def r10b : AgentResult :=
  { agent_id := "agent_2", query := "q2",
    content := { current_analysis := "BBB", key_findings := "",
                 implementation_insights := "", future_prospects := "" },
    sources := [], confidence_score := 9/10, domain := "実装手法" }

/-- `r10a` with different content, same domain and confidence. -/
def r10a2 : AgentResult :=
  { agent_id := "agent_1", query := "q1",
    content := { current_analysis := "XXX", key_findings := "YYY",
                 implementation_insights := "", future_prospects := "" },
    sources := [], confidence_score := 1/10, domain := "技術動向" }

/-- `r10b` with different content, same domain and confidence. -/
def r10b2 : AgentResult :=
  { agent_id := "agent_2", query := "q2",
    content := { current_analysis := "ZZZ", key_findings := "",
                 implementation_insights := "WWW", future_prospects := "" },
    sources := [], confidence_score := 9/10, domain := "実装手法" }

/-! ## Witnesses -/

/-- Concrete instance of C9: identity below the threshold, marker-appended
truncation above it. -/
theorem compress_context_identity_and_truncation_witness :
    compress_context "AI" 5 .throw = "AI"
    ∧ compress_context "abcdefgh" 5 .throw = pyTake "abcdefgh" 5 ++ truncationMarker
    ∧ (compress_context "abcdefgh" 5 .throw).length = 5 + truncationMarker.length :=
  ⟨(compress_context_identity_and_truncation "AI" 5 .throw).1 (by decide),
   ((compress_context_identity_and_truncation "abcdefgh" 5 .throw).2 (by decide)).1,
   ((compress_context_identity_and_truncation "abcdefgh" 5 .throw).2 (by decide)).2⟩

set_option maxRecDepth 100000 in
/-- Concrete instance of C8's length monotonicity. -/
theorem confidence_score_formula_and_monotone_witness :
    (conduct_specialized_research "agent_1" sq0 (.ok [])
        (.ok (some bigRC))).confidence_score
      ≥ (conduct_specialized_research "agent_1" sq0 (.ok [])
          (.ok (some smallRC))).confidence_score :=
  (confidence_score_formula_and_monotone "agent_1" sq0 (.ok []) none).2.2
    bigRC smallRC (by decide) (by decide)

/-- Concrete instance of C10's content independence: two result pairs that
differ only in content synthesise to the same parse-failure output. -/
theorem synthesize_parse_failure_drops_agent_content_witness :
    synthesize_agent_results [r10a, r10b] (.ok none)
      = synthesize_agent_results [r10a2, r10b2] (.ok none) :=
  (synthesize_parse_failure_drops_agent_content r10a r10b []).2.2 r10a2 r10b2 [] rfl

/-- Concrete instance of C4: an all-raising three-agent run still yields one
result per dispatched sub-query. -/
theorem conduct_research_one_result_per_dispatched_witness :
    ∃ res, conduct_research cfg0 runChatThrow "AIの動向" = some res
      ∧ res.agent_results
          = ((pipeline_sub_queries cfg0 runChatThrow "AIの動向").take
              cfg0.max_sub_agents).length :=
  conduct_research_one_result_per_dispatched_sub_query cfg0 runChatThrow "AIの動向"
    (by decide) rfl rfl (by decide)

/-- Concrete instance of C6: the timed-out batch returns `None`. -/
theorem conduct_research_batch_timeout_returns_none_witness :
    conduct_research cfg0 runTimeout "AIの動向" = none :=
  conduct_research_batch_timeout_returns_none cfg0 runTimeout "AIの動向"
    (by decide) rfl

/-- Concrete instance of C7: every chat call raising still yields three
failure-shaped agent results. -/
theorem conduct_research_survives_all_chat_failures_witness :
    ∃ res, conduct_research cfg0 runChatThrow "AIの動向" = some res
      ∧ res.agent_results = 3
      ∧ res.confidence_score = 1/10
      ∧ ∀ r ∈ pipeline_agent_results cfg0 runChatThrow "AIの動向",
          (∃ e, r.content.current_analysis = errorAnalysis e)
          ∧ r.content.key_findings = ""
          ∧ r.content.implementation_insights = ""
          ∧ r.content.future_prospects = ""
          ∧ r.confidence_score = 1/10 :=
  conduct_research_survives_all_chat_failures cfg0 "AIの動向" (fun _ => "boom")
    (fun _ => .ok []) (by decide) rfl rfl
